import Mathlib

/-!
Shallow embedding of the transcription-and-summarization pipeline in
`main.py` (AI-Powered-Meeting-Summarizer).

The Python file orchestrates three external stages: audio normalization via
a transcoding subprocess (`preprocess_audio`), speech-to-text via a
subprocess with shell redirection (`transcribe_and_summarize`, step 1), and
streamed summarization over HTTP (`run_ollama_summary`).  External effects
(process exit codes, HTTP outcomes, file readability) are modelled as an
explicit environment; the filesystem and the number of external
process/HTTP invocations are threaded as explicit state.  Python string
primitives used by the code (`os.path.splitext`, `str.replace`,
`str.lower`, `str.strip`, `in`, `endswith`, `sorted`) are embedded over
`List Char`, with string comparison the code-point lexicographic order that
Python's `sorted` uses.
-/

/-- Code-point lexicographic comparison of character lists, the order Python
uses to compare strings. -/
def charListLe : List Char → List Char → Bool
  | [], _ => true
  | _ :: _, [] => false
  | a :: as, b :: bs =>
    if a < b then true else if b < a then false else charListLe as bs

/-- Python's string ordering (`s1 <= s2`), as a proposition on Lean strings. -/
def pyStrLe (a b : String) : Prop := charListLe a.data b.data = true

instance : DecidableRel pyStrLe := fun a b =>
  (inferInstance : Decidable (charListLe a.data b.data = true))

instance : IsTrans String pyStrLe := by
  constructor
  suffices h : ∀ a b c : List Char, charListLe a b = true → charListLe b c = true →
      charListLe a c = true by
    intro a b c hab hbc
    exact h a.data b.data c.data hab hbc
  intro a
  induction a with
  | nil => intro b c _ _; rfl
  | cons x xs ih =>
    intro b c hab hbc
    cases b with
    | nil => simp [charListLe] at hab
    | cons y ys =>
      cases c with
      | nil => simp [charListLe] at hbc
      | cons z zs =>
        simp only [charListLe] at hab hbc ⊢
        rcases lt_trichotomy x y with hxy | hxy | hxy
        · rcases lt_trichotomy y z with hyz | hyz | hyz
          · simp [hxy.trans hyz]
          · subst hyz; simp [hxy]
          · simp [lt_asymm hyz, hyz] at hbc
        · subst hxy
          rcases lt_trichotomy x z with hyz | hyz | hyz
          · simp [hyz]
          · subst hyz
            simp only [lt_irrefl, if_neg (lt_irrefl x)] at hab hbc ⊢
            exact ih ys zs hab hbc
          · simp [lt_asymm hyz, hyz] at hbc
        · simp [lt_asymm hxy, hxy] at hab

instance : IsTotal String pyStrLe := by
  constructor
  suffices h : ∀ a b : List Char, charListLe a b = true ∨ charListLe b a = true by
    intro a b
    exact h a.data b.data
  intro a
  induction a with
  | nil => intro b; left; rfl
  | cons x xs ih =>
    intro b
    cases b with
    | nil => right; rfl
    | cons y ys =>
      simp only [charListLe]
      rcases lt_trichotomy x y with hxy | hxy | hxy
      · left; simp [hxy]
      · subst hxy
        simp only [lt_irrefl, if_neg (lt_irrefl x)]
        exact ih ys
      · right; simp [hxy]

instance : IsAntisymm String pyStrLe := by
  constructor
  suffices h : ∀ a b : List Char, charListLe a b = true → charListLe b a = true →
      a = b by
    intro a b hab hba
    cases a with
    | mk da =>
      cases b with
      | mk db => exact congrArg String.mk (h da db hab hba)
  intro a
  induction a with
  | nil =>
    intro b _ hba
    cases b with
    | nil => rfl
    | cons y ys => simp [charListLe] at hba
  | cons x xs ih =>
    intro b hab hba
    cases b with
    | nil => simp [charListLe] at hab
    | cons y ys =>
      simp only [charListLe] at hab hba
      rcases lt_trichotomy x y with hxy | hxy | hxy
      · simp [lt_asymm hxy, hxy] at hba
      · subst hxy
        simp only [lt_irrefl, if_neg (lt_irrefl x)] at hab hba
        exact congrArg (x :: ·) (ih ys hab hba)
      · simp [lt_asymm hxy, hxy] at hab

/-- Python truthiness test on an optional string argument: `not audio_path`
holds for `None` and for the empty string. -/
def pyFalsy : Option String → Bool
  | none => true
  | some s => s == ""

/-- Python `str.lower()` (character-wise lowercasing). -/
def pyLower (s : String) : String := ⟨s.data.map Char.toLower⟩

/-- Python `str.strip()`: remove leading and trailing whitespace. -/
def pyStrip (s : String) : String :=
  ⟨((s.data.dropWhile Char.isWhitespace).reverse.dropWhile Char.isWhitespace).reverse⟩

/-- Python `s.endswith(suffix)`. -/
def pyEndsWith (s suffix : String) : Bool := suffix.data.isSuffixOf s.data

/-- Substring occurrence test on character lists (Python's `needle in hay`). -/
def containsSub (pat : List Char) : List Char → Bool
  | [] => pat.isEmpty
  | c :: rest => pat.isPrefixOf (c :: rest) || containsSub pat rest

/-- Python `needle in hay` on strings. -/
def pyContains (hay needle : String) : Bool := containsSub needle.data hay.data

/-- Index of the last occurrence of `c` in `l`, if any. -/
def lastIdxOf (c : Char) (l : List Char) : Option Nat :=
  ((List.range l.length).filter (fun i => l.getD i c == c)).getLast?

/-- Python `str.rfind`: index of the last occurrence, `-1` when absent. -/
def py_rfind (c : Char) (l : List Char) : Int :=
  match lastIdxOf c l with
  | none => -1
  | some i => (i : Int)

/-- Root part of Python `os.path.splitext` (posix rules): cut at the last
dot, provided it lies after the last path separator and some non-dot
character of the file name precedes it. -/
def py_splitext_base (p : String) : String :=
  let l := p.data
  let sepIndex := py_rfind '/' l
  let dotIndex := py_rfind '.' l
  if dotIndex > sepIndex then
    if (List.range l.length).any (fun i =>
        decide (sepIndex < (i : Int)) && decide ((i : Int) < dotIndex) &&
          (l.getD i '.' != '.')) then
      ⟨l.take dotIndex.toNat⟩
    else p
  else p

/-- Worker for Python `str.replace`: scan left to right, replacing
non-overlapping occurrences of `pat`; `fuel` bounds the recursion. -/
def pyReplaceAux (pat rep : List Char) : Nat → List Char → List Char
  | 0, l => l
  | _ + 1, [] => []
  | fuel + 1, c :: rest =>
    if !pat.isEmpty && pat.isPrefixOf (c :: rest) then
      rep ++ pyReplaceAux pat rep fuel ((c :: rest).drop pat.length)
    else
      c :: pyReplaceAux pat rep fuel rest

/-- Python `s.replace(pat, rep)`. -/
def pyReplace (s pat rep : String) : String :=
  ⟨pyReplaceAux pat.data rep.data s.data.length s.data⟩

/-! ### ModelCatalog: `list_ollama_models` and `list_whisper_models` -/

/-- One entry of the `models` array returned by the inference server's
`GET /api/tags` endpoint; the code reads its `model` field. -/
structure OllamaTag where
  model : String
deriving DecidableEq

/-- Outcome of the model-listing HTTP request: any exception raised by
`requests.get`, `raise_for_status` or JSON decoding, or a decoded `models`
array. -/
inductive TagsOutcome where
  | failure (e : String)
  | success (models : List OllamaTag)
deriving DecidableEq

/-- Embeds `list_ollama_models`: on success, the `model` field of every
entry of the `models` array; on any exception, the caught handler logs a
warning and returns the empty list. -/
def list_ollama_models : TagsOutcome → List String
  | .failure _ => []
  | .success ms => ms.map OllamaTag.model

/-- The fixed allow-list `valid` of `list_whisper_models`. -/
def validWhisperTiers : List String := ["base", "small", "medium", "large", "large-v3"]

/-- Loop body of `list_whisper_models` for one directory entry: keep `.bin`
files, strip the extension and the `ggml-` prefix, and keep the name when
its lowercasing contains one of the allowed size tiers. -/
def whisperNameOf (f : String) : Option String :=
  if pyEndsWith f ".bin" then
    let name := pyReplace (py_splitext_base f) "ggml-" ""
    if validWhisperTiers.any (fun v => pyContains (pyLower name) v) then some name
    else none
  else none

/-- Embeds `list_whisper_models`: `none` stands for a missing models
directory (`os.path.exists` false), `some listing` for the contents of
`os.listdir`; the accepted names are deduplicated (`set`) and sorted
(`sorted`, Python's lexicographic string order). -/
def list_whisper_models (dir : Option (List String)) : List String :=
  match dir with
  | none => []
  | some listing => List.insertionSort pyStrLe (listing.filterMap whisperNameOf).dedup

/-! ### Summarizer: `run_ollama_summary` -/

/-- One line delivered by `resp.iter_lines()`: empty (skipped by
`if not line: continue`), malformed (non-empty but not valid JSON, so
`json.loads` raises, carrying the decode-error text), or a decoded JSON
fragment with its `response` text and `done` flag. -/
inductive StreamLine where
  | empty
  | malformed (e : String)
  | frag (response : String) (done : Bool)
deriving DecidableEq

/-- Outcome of the streaming generation request: a network-level exception
from `requests.post`/`raise_for_status` (carrying the exception text), or a
stream of lines. -/
inductive OllamaOutcome where
  | netFailure (e : String)
  | stream (lines : List StreamLine)
deriving DecidableEq

/-- The `for line in resp.iter_lines()` loop of `run_ollama_summary`: skip
empty lines, append each fragment's `response` to the accumulator, stop
after the first fragment whose `done` flag is truthy; a malformed line makes
`json.loads` raise (`.error`). -/
def consumeLines : List StreamLine → String → Except String String
  | [], acc => .ok acc
  | .empty :: rest, acc => consumeLines rest acc
  | .malformed e :: _, _ => .error e
  | .frag r d :: rest, acc =>
    if d then .ok (acc ++ r) else consumeLines rest (acc ++ r)

/-- The error string built by the exception handler of
`run_ollama_summary`. -/
def failMsg (e : String) : String := "⚠️ Failed to generate summary: " ++ e

/-- Python `a or b` for an optional string `a`: the default is used when
`a` is `None` or empty. -/
def pyOr (a : Option String) (b : String) : String :=
  match a with
  | none => b
  | some s => if s == "" then b else s

/-- The prompt template of `run_ollama_summary`. -/
def ollamaPrompt (context : Option String) (text : String) : String :=
  "\nYou are a helpful AI that summarizes meeting transcripts.\n\nContext: " ++
    pyOr context "No additional context provided." ++
    "\n\nTranscript:\n" ++ text ++ "\n\nWrite a clear and concise summary:\n"

/-- Embeds `run_ollama_summary`: build the prompt, issue the streaming
request, accumulate fragments until `done`, and return the stripped
accumulation; any exception inside the `try` block (network failure or a
JSON decode error on a malformed line) is converted into the
`failMsg` string. -/
def run_ollama_summary (model : String) (context : Option String) (text : String)
    (outcome : OllamaOutcome) : String :=
  let _payload := (model, ollamaPrompt context text)
  match outcome with
  | .netFailure e => failMsg e
  | .stream lines =>
    match consumeLines lines "" with
    | .ok s => pyStrip s
    | .error e => failMsg e

/-! ### PipelineOrchestrator: `preprocess_audio` and `transcribe_and_summarize` -/

/-- Exceptions the pipeline can raise to its caller: a
`subprocess.CalledProcessError` from `check=True` (carrying the command and
the non-zero return code), or an I/O error from `open`/`read`. -/
inductive PyExn where
  | calledProcessError (cmd : String) (returncode : Nat)
  | ioError (path : String)
deriving DecidableEq

/-- Result of one invocation of `transcribe_and_summarize`: a normal return
of `(summary, transcript path)` or a propagated exception. -/
inductive RunResult where
  | ok (summary : String) (transcriptPath : Option String)
  | raised (e : PyExn)
deriving DecidableEq

/-- Observable state threaded through one invocation: the set of files on
disk, and counters of external process invocations (`subprocess.run`), HTTP
generation calls (`requests.post`), and `os.remove` calls. -/
structure St where
  files : List String
  procCalls : Nat
  httpCalls : Nat
  removeCalls : Nat
deriving DecidableEq

/-- Add a path to the file set (creating an already-existing file leaves
the set unchanged). -/
def insertFile (files : List String) (p : String) : List String :=
  if p ∈ files then files else p :: files

/-- The transcoding command line of `preprocess_audio`. -/
def ffmpeg_cmd (file_path output : String) : String :=
  "ffmpeg -y -i \"" ++ file_path ++ "\" -ar 16000 -ac 1 \"" ++ output ++ "\""

/-- Output path derived by `preprocess_audio`: the input's `splitext` root
with the fixed suffix appended. -/
def preprocess_audio_output (file_path : String) : String :=
  py_splitext_base file_path ++ "_clean.wav"

/-- The speech-to-text command line of `transcribe_and_summarize`, with
standard output redirected to the transcript file. -/
def whisper_cmd (whisper_model wav_file transcript : String) : String :=
  "./whisper.cpp/main -m ./whisper.cpp/models/ggml-" ++ whisper_model ++
    ".bin -f \"" ++ wav_file ++ "\" > \"" ++ transcript ++ "\""

/-- Environment of one invocation: exit codes of the two external
processes, readability of the transcript file after the speech-to-text
process succeeds, its content, and the outcome of the summarization
request. -/
structure Env where
  ffmpegExit : Nat
  whisperExit : Nat
  readOk : Bool
  transcriptContent : String
  ollama : OllamaOutcome

/-- Embeds `preprocess_audio`: run the transcoding subprocess
(`check=True`); on exit code zero the normalized file exists and its path
is returned, otherwise `CalledProcessError` is raised. -/
def preprocess_audio (ffmpegExit : Nat) (file_path : String) (st : St) :
    Except PyExn String × St :=
  let output := preprocess_audio_output file_path
  let st := { st with procCalls := st.procCalls + 1 }
  if ffmpegExit ≠ 0 then
    (.error (.calledProcessError (ffmpeg_cmd file_path output) ffmpegExit), st)
  else
    (.ok output, { st with files := insertFile st.files output })

/-- Embeds `transcribe_and_summarize`: validate the input, normalize the
audio, run the speech-to-text process with output redirected to
`transcript.txt`, read the transcript back, summarize, then delete the
normalized file and return.  Exceptions from `check=True` subprocesses or
from reading the transcript propagate (`.raised`); nothing catches them, so
the `os.remove` cleanup at the end is skipped on those paths. -/
def transcribe_and_summarize (env : Env) (audio_path : Option String)
    (context : Option String) (whisper_model llm_model : String) (st : St) :
    RunResult × St :=
  if pyFalsy audio_path then
    (.ok "❌ Please upload an audio file." none, st)
  else
    match preprocess_audio env.ffmpegExit (audio_path.getD "") st with
    | (.error e, st) => (.raised e, st)
    | (.ok wav_file, st) =>
      let transcript_output := "transcript.txt"
      let st := { st with procCalls := st.procCalls + 1,
                          files := insertFile st.files transcript_output }
      if env.whisperExit ≠ 0 then
        (.raised (.calledProcessError
          (whisper_cmd whisper_model wav_file transcript_output) env.whisperExit), st)
      else if env.readOk = false then
        (.raised (.ioError transcript_output), st)
      else
        let summary := run_ollama_summary llm_model context env.transcriptContent env.ollama
        let st := { st with httpCalls := st.httpCalls + 1 }
        let st := { st with files := st.files.erase wav_file,
                            removeCalls := st.removeCalls + 1 }
        (.ok summary (some transcript_output), st)

/-- Transcript path handed to the caller by an invocation result (`none`
when an exception propagated). -/
def transcriptPathOf : RunResult → Option String
  | .ok _ p => p
  | .raised _ => none

/-- Fresh observable state: empty filesystem, no external calls yet. -/
def st0 : St := ⟨[], 0, 0, 0⟩

/-- A stream line the loop consumes without stopping or raising: an empty
line, or a well-formed fragment whose `done` flag is false. -/
def isPlainLine : StreamLine → Bool
  | .empty => true
  | .frag _ d => !d
  | .malformed _ => false

/-- Accumulation step of the stream loop on one line: append the fragment's
`response`, leave the accumulator unchanged otherwise. -/
def accResp (acc : String) (l : StreamLine) : String :=
  match l with
  | .frag r _ => acc ++ r
  | _ => acc

/-- Environment where transcoding fails (non-zero transcoder exit). -/
def envFfmpegFail : Env := ⟨1, 0, true, "", .netFailure "x"⟩

/-- Environment where transcoding succeeds and the speech-to-text process
exits non-zero. -/
def envWhisperFail : Env := ⟨0, 1, true, "", .netFailure "x"⟩

/-- Environment where both processes succeed and the summarization request
fails at the network level. -/
def envSummFail : Env := ⟨0, 0, true, "meeting words", .netFailure "boom"⟩

/-- Environment where every stage succeeds and the stream yields the
fragments Hel / lo / (empty, done). -/
def envStreamOk : Env :=
  ⟨0, 0, true, "meeting words", .stream [.frag "Hel" false, .frag "lo" false, .frag "" true]⟩

/-! ### Helper lemmas -/

/-- The normalized-audio path always differs from the fixed transcript
path. -/
theorem append_clean_wav_ne_transcript (base : String) :
    base ++ "_clean.wav" ≠ "transcript.txt" := by
  intro h
  have hd : base.data ++ ("_clean.wav" : String).data =
      ("tran" : String).data ++ ("script.txt" : String).data := by
    have h1 := congrArg String.data h
    rw [String.data_append] at h1
    rw [h1]
    decide
  have h2 := (List.append_inj' hd (by decide)).2
  exact absurd h2 (by decide)

/-- The derived normalized-audio path never collides with the fixed
transcript path. -/
theorem preprocess_output_ne_transcript (p : String) :
    preprocess_audio_output p ≠ "transcript.txt" :=
  append_clean_wav_ne_transcript (py_splitext_base p)

/-- The summarizer's error message is never the empty string. -/
theorem failMsg_ne_empty (e : String) : failMsg e ≠ "" := by
  intro h
  have h2 := congrArg String.data h
  simp [failMsg, String.data_append] at h2

theorem mem_insertFile {fs : List String} {p q : String} :
    q ∈ insertFile fs p ↔ q = p ∨ q ∈ fs := by
  unfold insertFile
  by_cases hp : p ∈ fs
  · simp only [if_pos hp]
    constructor
    · exact Or.inr
    · rintro (rfl | h)
      · exact hp
      · exact h
  · simp [if_neg hp, List.mem_cons]

theorem insertFile_of_not_mem {fs : List String} {p : String} (h : p ∉ fs) :
    insertFile fs p = p :: fs := if_neg h

/-- Consuming a stream whose prefix is plain lines, followed by a fragment
with the `done` flag set, returns the accumulated responses of the prefix
plus the final fragment; everything after the `done` fragment is ignored. -/
theorem consumeLines_append_done (pre : List StreamLine) (r : String)
    (post : List StreamLine) (acc : String) (h : pre.all isPlainLine = true) :
    consumeLines (pre ++ .frag r true :: post) acc =
      .ok (pre.foldl accResp acc ++ r) := by
  induction pre generalizing acc with
  | nil => simp [consumeLines]
  | cons l rest ih =>
    simp only [List.all_cons, Bool.and_eq_true] at h
    cases l with
    | empty =>
      simpa [consumeLines, accResp] using ih acc h.2
    | malformed e => simp [isPlainLine] at h
    | frag s d =>
      have hd : d = false := by
        have := h.1
        simp [isPlainLine] at this
        exact this
      subst hd
      simpa [consumeLines, accResp] using ih (acc ++ s) h.2

/-- Consuming a stream whose prefix is plain lines, followed by a malformed
line, raises the JSON decode error of the malformed line. -/
theorem consumeLines_append_malformed (pre : List StreamLine) (e : String)
    (post : List StreamLine) (acc : String) (h : pre.all isPlainLine = true) :
    consumeLines (pre ++ .malformed e :: post) acc = .error e := by
  induction pre generalizing acc with
  | nil => simp [consumeLines]
  | cons l rest ih =>
    simp only [List.all_cons, Bool.and_eq_true] at h
    cases l with
    | empty => simpa [consumeLines] using ih acc h.2
    | malformed e' => simp [isPlainLine] at h
    | frag s d =>
      have hd : d = false := by
        have := h.1
        simp [isPlainLine] at this
        exact this
      subst hd
      simpa [consumeLines] using ih (acc ++ s) h.2

/-- Full characterization of an invocation in which validation passes and
both external processes succeed with a readable transcript: the summarizer
output is returned with the fixed transcript path, and the final state
records two process calls, one HTTP call and one `os.remove` of the
normalized file. -/
theorem run_success (env : Env) (p : String) (c : Option String) (wm lm : String)
    (st : St) (hp : pyFalsy (some p) = false) (hf : env.ffmpegExit = 0)
    (hw : env.whisperExit = 0) (hr : env.readOk = true) :
    transcribe_and_summarize env (some p) c wm lm st =
      (.ok (run_ollama_summary lm c env.transcriptContent env.ollama)
        (some "transcript.txt"),
       ⟨(insertFile (insertFile st.files (preprocess_audio_output p))
           "transcript.txt").erase (preprocess_audio_output p),
        st.procCalls + 1 + 1, st.httpCalls + 1, st.removeCalls + 1⟩) := by
  simp [transcribe_and_summarize, preprocess_audio, hp, hf, hw, hr]

/-- Full characterization of an invocation in which validation passes and
the transcoding process fails: the `CalledProcessError` propagates, one
process call was made, and no file was created or removed. -/
theorem run_ffmpeg_fail (env : Env) (p : String) (c : Option String) (wm lm : String)
    (st : St) (hp : pyFalsy (some p) = false) (hff : env.ffmpegExit ≠ 0) :
    transcribe_and_summarize env (some p) c wm lm st =
      (.raised (.calledProcessError (ffmpeg_cmd p (preprocess_audio_output p))
        env.ffmpegExit),
       { st with procCalls := st.procCalls + 1 }) := by
  simp [transcribe_and_summarize, preprocess_audio, hp, hff]

/-- Full characterization of an invocation in which validation passes,
transcoding succeeds and the speech-to-text process fails: the
`CalledProcessError` propagates after two process calls, with the
normalized file and the (redirection-created) transcript file on disk and
no HTTP call and no `os.remove`. -/
theorem run_whisper_fail (env : Env) (p : String) (c : Option String) (wm lm : String)
    (st : St) (hp : pyFalsy (some p) = false) (hf : env.ffmpegExit = 0)
    (hw : env.whisperExit ≠ 0) :
    transcribe_and_summarize env (some p) c wm lm st =
      (.raised (.calledProcessError
        (whisper_cmd wm (preprocess_audio_output p) "transcript.txt") env.whisperExit),
       ⟨insertFile (insertFile st.files (preprocess_audio_output p)) "transcript.txt",
        st.procCalls + 1 + 1, st.httpCalls, st.removeCalls⟩) := by
  simp [transcribe_and_summarize, preprocess_audio, hp, hf, hw]

/-! ### Claims -/

/-- C3: for every input where the audio path is absent (falsy), `run`
returns the fixed user-facing validation message and a `None` transcript
path, leaving the observable state unchanged — in particular zero external
process invocations and zero HTTP calls occur. -/
theorem c3_missing_audio_validation (env : Env) (audio : Option String)
    (context : Option String) (wm lm : String) (st : St)
    (h : pyFalsy audio = true) :
    transcribe_and_summarize env audio context wm lm st =
      (.ok "❌ Please upload an audio file." none, st) := by
  simp [transcribe_and_summarize, h]

theorem c3_missing_audio_validation_witness :
    pyFalsy none = true ∧
    transcribe_and_summarize envStreamOk none none "base" "llama3" st0 =
      (.ok "❌ Please upload an audio file." none, st0) :=
  ⟨rfl, c3_missing_audio_validation envStreamOk none none "base" "llama3" st0 rfl⟩

/-- C5: `list_whisper_models` returns the empty sequence when the models
directory does not exist; on the directory containing `ggml-small.en.bin`,
`ggml-large-v3.bin` and `notes.txt` it returns exactly
`["large-v3", "small.en"]`; and on every directory listing its result is
lexicographically sorted and deduplicated. -/
theorem c5_list_whisper_models_sorted_dedup :
    list_whisper_models none = [] ∧
    list_whisper_models (some ["ggml-small.en.bin", "ggml-large-v3.bin", "notes.txt"]) =
      ["large-v3", "small.en"] ∧
    ∀ listing : List String, (list_whisper_models (some listing)).Sorted pyStrLe ∧
      (list_whisper_models (some listing)).Nodup := by
  refine ⟨rfl, by decide, ?_⟩
  intro listing
  constructor
  · exact List.sorted_insertionSort pyStrLe _
  · exact ((List.perm_insertionSort pyStrLe _).nodup_iff).mpr (List.nodup_dedup _)

/-- C6: `list_whisper_models` is determined by the directory contents
alone: two listings of the same directory (permutations of each other, as
`os.listdir` fixes no order) give the same sorted, deduplicated sequence,
and the operation mutates nothing. -/
theorem c6_list_whisper_models_deterministic (l₁ l₂ : List String)
    (h : l₁.Perm l₂) :
    list_whisper_models (some l₁) = list_whisper_models (some l₂) := by
  unfold list_whisper_models
  exact List.eq_of_perm_of_sorted
    ((List.perm_insertionSort pyStrLe _).trans
      (((h.filterMap whisperNameOf).dedup).trans
        (List.perm_insertionSort pyStrLe _).symm))
    (List.sorted_insertionSort pyStrLe _) (List.sorted_insertionSort pyStrLe _)

theorem c6_list_whisper_models_deterministic_witness :
    (["notes.txt", "ggml-small.en.bin"] : List String).Perm
      ["ggml-small.en.bin", "notes.txt"] ∧
    list_whisper_models (some ["notes.txt", "ggml-small.en.bin"]) =
      list_whisper_models (some ["ggml-small.en.bin", "notes.txt"]) ∧
    list_whisper_models (some ["notes.txt", "ggml-small.en.bin"]) = ["small.en"] :=
  ⟨by decide,
   c6_list_whisper_models_deterministic _ _ (by decide),
   by decide⟩

/-- C9: `list_ollama_models` never raises: on any failed model-listing
request it returns the empty sequence, and on success it returns the
`model` field of each entry of the response's `models` array. -/
theorem c9_list_ollama_models_error_handling (e : String) (entries : List OllamaTag) :
    list_ollama_models (.failure e) = [] ∧
    list_ollama_models (.success entries) = entries.map OllamaTag.model :=
  ⟨rfl, rfl⟩

/-- C2: when normalization and transcription succeed but the summarization
request fails at the network level, `run` returns the summarizer's
non-empty error-message string as the summary together with the fixed
transcript file path (not `None`); the invocation completes normally (no
exception) and the transcript file is still on disk. -/
theorem c2_summarization_failure_returns_transcript (env : Env) (p : String)
    (c : Option String) (wm lm : String) (st : St) (e : String)
    (hp : pyFalsy (some p) = false) (hf : env.ffmpegExit = 0)
    (hw : env.whisperExit = 0) (hr : env.readOk = true)
    (ho : env.ollama = .netFailure e) :
    (transcribe_and_summarize env (some p) c wm lm st).1 =
      .ok (failMsg e) (some "transcript.txt") ∧
    failMsg e ≠ "" ∧
    "transcript.txt" ∈ (transcribe_and_summarize env (some p) c wm lm st).2.files := by
  rw [run_success env p c wm lm st hp hf hw hr]
  refine ⟨by simp [run_ollama_summary, ho], failMsg_ne_empty e, ?_⟩
  show ("transcript.txt" : String) ∈
    (insertFile (insertFile st.files (preprocess_audio_output p))
      "transcript.txt").erase (preprocess_audio_output p)
  rw [List.mem_erase_of_ne (Ne.symm (preprocess_output_ne_transcript p))]
  exact mem_insertFile.mpr (Or.inl rfl)

theorem c2_summarization_failure_returns_transcript_witness :
    (transcribe_and_summarize envSummFail (some "meeting.mp3") none "base" "llama3" st0).1 =
      .ok (failMsg "boom") (some "transcript.txt") ∧
    failMsg "boom" ≠ "" ∧
    "transcript.txt" ∈
      (transcribe_and_summarize envSummFail (some "meeting.mp3") none "base" "llama3" st0).2.files :=
  c2_summarization_failure_returns_transcript envSummFail "meeting.mp3" none "base"
    "llama3" st0 "boom" (by decide) rfl rfl rfl rfl

/-- C1 counterexample: on a transcription-stage failure (speech-to-text
process exits non-zero) the `CalledProcessError` propagates before the
cleanup line runs, so `os.remove` is never called and the normalized-audio
file is still on disk when `run` returns — refuting deletion on every exit
path. -/
theorem c1_cleanup_counterexample :
    (transcribe_and_summarize envWhisperFail (some "meeting.mp3") none "base" "llama3"
      st0).2.removeCalls = 0 ∧
    "meeting_clean.wav" ∈
      (transcribe_and_summarize envWhisperFail (some "meeting.mp3") none "base" "llama3"
        st0).2.files ∧
    (transcribe_and_summarize envWhisperFail (some "meeting.mp3") none "base" "llama3"
      st0).1 =
      .raised (.calledProcessError
        (whisper_cmd "base" "meeting_clean.wav" "transcript.txt") 1) := by
  refine ⟨by decide, by decide, by decide⟩

/-- C1 (amended): on invocations that pass validation and in which the
speech-to-text process succeeds and the transcript is readable — the
success and summarization-failure paths — the normalized-audio file is
deleted exactly once (`os.remove` called once, file absent) before `run`
returns; on transcription-stage failure the exception propagates and no
deletion happens. -/
theorem c1_normalized_audio_cleanup (env : Env) (p : String) (c : Option String)
    (wm lm : String) (st : St) (hp : pyFalsy (some p) = false)
    (hf : env.ffmpegExit = 0) (hw : env.whisperExit = 0) (hr : env.readOk = true)
    (hfresh : preprocess_audio_output p ∉ st.files) :
    (transcribe_and_summarize env (some p) c wm lm st).2.removeCalls =
      st.removeCalls + 1 ∧
    preprocess_audio_output p ∉
      (transcribe_and_summarize env (some p) c wm lm st).2.files := by
  rw [run_success env p c wm lm st hp hf hw hr]
  refine ⟨rfl, ?_⟩
  rw [insertFile_of_not_mem hfresh]
  by_cases ht : ("transcript.txt" : String) ∈ preprocess_audio_output p :: st.files
  · rw [insertFile, if_pos ht, List.erase_cons_head]
    exact hfresh
  · rw [insertFile, if_neg ht,
      List.erase_cons_tail (by simp [Ne.symm (preprocess_output_ne_transcript p)]),
      List.erase_cons_head]
    intro hmem
    rcases List.mem_cons.mp hmem with h1 | h1
    · exact preprocess_output_ne_transcript p h1
    · exact hfresh h1

theorem c1_normalized_audio_cleanup_witness :
    (transcribe_and_summarize envSummFail (some "meeting.mp3") none "base" "llama3"
      st0).2.removeCalls = st0.removeCalls + 1 ∧
    preprocess_audio_output "meeting.mp3" ∉
      (transcribe_and_summarize envSummFail (some "meeting.mp3") none "base" "llama3"
        st0).2.files :=
  c1_normalized_audio_cleanup envSummFail "meeting.mp3" none "base" "llama3" st0
    (by decide) rfl rfl rfl (by decide)

/-- C4 counterexample: when the transcoding process exits non-zero,
`subprocess.run(check=True)` raises `CalledProcessError` and nothing in the
pipeline catches it, so the caller receives the raw exception — not a
short prefixed human-readable message. -/
theorem c4_raw_exception_counterexample :
    (transcribe_and_summarize envFfmpegFail (some "m.mp3") none "base" "llama3" st0).1 =
      .raised (.calledProcessError (ffmpeg_cmd "m.mp3" "m_clean.wav") 1) := by
  decide

/-- C4 (amended): when the transcoding or the speech-to-text process exits
non-zero, `run` aborts the remaining stages — the summarization HTTP call
never happens, and after a transcoding failure the speech-to-text process
is not started — but the failure surfaces as the propagated
`CalledProcessError` exception, not as a prefixed message. -/
theorem c4_external_tool_failure_aborts (env : Env) (p : String)
    (c : Option String) (wm lm : String) (st : St)
    (hp : pyFalsy (some p) = false)
    (hfail : env.ffmpegExit ≠ 0 ∨ env.whisperExit ≠ 0) :
    (∃ cmd code, (transcribe_and_summarize env (some p) c wm lm st).1 =
        .raised (.calledProcessError cmd code) ∧ code ≠ 0) ∧
    (transcribe_and_summarize env (some p) c wm lm st).2.httpCalls = st.httpCalls ∧
    (env.ffmpegExit ≠ 0 →
      (transcribe_and_summarize env (some p) c wm lm st).2.procCalls =
        st.procCalls + 1) := by
  by_cases hff : env.ffmpegExit = 0
  · have hw : env.whisperExit ≠ 0 := by
      rcases hfail with h | h
      · exact absurd hff h
      · exact h
    rw [run_whisper_fail env p c wm lm st hp hff hw]
    exact ⟨⟨_, _, rfl, hw⟩, rfl, fun h => absurd hff h⟩
  · rw [run_ffmpeg_fail env p c wm lm st hp hff]
    exact ⟨⟨_, _, rfl, hff⟩, rfl, fun _ => rfl⟩

theorem c4_external_tool_failure_aborts_witness :
    (∃ cmd code, (transcribe_and_summarize envFfmpegFail (some "m.mp3") none "base"
        "llama3" st0).1 = .raised (.calledProcessError cmd code) ∧ code ≠ 0) ∧
    (transcribe_and_summarize envFfmpegFail (some "m.mp3") none "base" "llama3"
      st0).2.httpCalls = st0.httpCalls ∧
    (envFfmpegFail.ffmpegExit ≠ 0 →
      (transcribe_and_summarize envFfmpegFail (some "m.mp3") none "base" "llama3"
        st0).2.procCalls = st0.procCalls + 1) :=
  c4_external_tool_failure_aborts envFfmpegFail "m.mp3" none "base" "llama3" st0
    (by decide) (Or.inl (by decide))

/-- C10: every successful invocation hands back the same fixed transcript
path `transcript.txt`, whatever the input audio path was; two successful
invocations therefore write their transcripts to the same file. -/
theorem c10_transcript_path_constant (env₁ env₂ : Env) (p₁ p₂ : String)
    (c₁ c₂ : Option String) (wm₁ wm₂ lm₁ lm₂ : String) (st₁ st₂ : St)
    (hp₁ : pyFalsy (some p₁) = false) (hf₁ : env₁.ffmpegExit = 0)
    (hw₁ : env₁.whisperExit = 0) (hr₁ : env₁.readOk = true)
    (hp₂ : pyFalsy (some p₂) = false) (hf₂ : env₂.ffmpegExit = 0)
    (hw₂ : env₂.whisperExit = 0) (hr₂ : env₂.readOk = true) :
    transcriptPathOf (transcribe_and_summarize env₁ (some p₁) c₁ wm₁ lm₁ st₁).1 =
      some "transcript.txt" ∧
    transcriptPathOf (transcribe_and_summarize env₁ (some p₁) c₁ wm₁ lm₁ st₁).1 =
      transcriptPathOf (transcribe_and_summarize env₂ (some p₂) c₂ wm₂ lm₂ st₂).1 := by
  rw [run_success env₁ p₁ c₁ wm₁ lm₁ st₁ hp₁ hf₁ hw₁ hr₁,
    run_success env₂ p₂ c₂ wm₂ lm₂ st₂ hp₂ hf₂ hw₂ hr₂]
  exact ⟨rfl, rfl⟩

theorem c10_transcript_path_constant_witness :
    transcriptPathOf (transcribe_and_summarize envStreamOk (some "meeting.mp3") none
      "base" "llama3" st0).1 = some "transcript.txt" ∧
    transcriptPathOf (transcribe_and_summarize envStreamOk (some "meeting.mp3") none
      "base" "llama3" st0).1 =
      transcriptPathOf (transcribe_and_summarize envSummFail (some "other.wav")
        (some "ctx") "small" "mistral" st0).1 :=
  c10_transcript_path_constant envStreamOk envSummFail "meeting.mp3" "other.wav"
    none (some "ctx") "base" "small" "llama3" "mistral" st0 st0
    (by decide) rfl rfl rfl (by decide) rfl rfl rfl

/-- C7: on the stream Hel / lo / (empty, done) the summarizer returns
exactly Hello; and on every stream made of plain lines followed by a
fragment with the `done` flag set, the fragment texts are concatenated in
arrival order, consumption stops at that first `done` fragment (later lines
are ignored), and the accumulated string is returned stripped. -/
theorem c7_stream_concat_roundtrip :
    (∀ (m : String) (c : Option String) (t : String),
      run_ollama_summary m c t
        (.stream [.frag "Hel" false, .frag "lo" false, .frag "" true]) = "Hello") ∧
    (∀ (m : String) (c : Option String) (t : String) (pre : List StreamLine)
        (r : String) (post : List StreamLine),
      pre.all isPlainLine = true →
      run_ollama_summary m c t (.stream (pre ++ .frag r true :: post)) =
        pyStrip (pre.foldl accResp "" ++ r)) := by
  constructor
  · intro m c t
    rfl
  · intro m c t pre r post h
    simp only [run_ollama_summary]
    rw [consumeLines_append_done pre r post "" h]

theorem c7_stream_concat_roundtrip_witness :
    ([StreamLine.empty, .frag "He" false] : List StreamLine).all isPlainLine = true ∧
    run_ollama_summary "llama3" none "words"
        (.stream ([StreamLine.empty, .frag "He" false] ++
          .frag "llo" true :: [.frag "ZZ" false])) =
      pyStrip (([StreamLine.empty, .frag "He" false] : List StreamLine).foldl
        accResp "" ++ "llo") ∧
    pyStrip (([StreamLine.empty, .frag "He" false] : List StreamLine).foldl
      accResp "" ++ "llo") = "Hello" :=
  ⟨by decide,
   c7_stream_concat_roundtrip.2 "llama3" none "words" [StreamLine.empty, .frag "He" false]
     "llo" [.frag "ZZ" false] (by decide),
   by decide⟩

/-- C8 counterexample: a malformed line between well-formed fragments is
not skipped — `json.loads` raises, the handler returns the error-message
string, and the fragments from the well-formed lines are discarded instead
of being accumulated into Hello. -/
theorem c8_malformed_line_counterexample :
    run_ollama_summary "llama3" none "words"
        (.stream [.frag "Hel" false, .malformed "Expecting value: line 1 column 1 (char 0)",
          .frag "lo" false, .frag "" true]) =
      failMsg "Expecting value: line 1 column 1 (char 0)" ∧
    failMsg "Expecting value: line 1 column 1 (char 0)" ≠ "Hello" := by
  exact ⟨rfl, by decide⟩

/-- C8 (amended): empty lines in the stream are skipped and do not cause an
error; a malformed line, however, aborts the stream consumption —
`summarize` returns the error-message string, discarding the fragments
accumulated from the well-formed lines before it and ignoring the lines
after it. -/
theorem c8_malformed_line_aborts_stream (m : String) (c : Option String)
    (t e : String) (pre post rest : List StreamLine)
    (h : pre.all isPlainLine = true) :
    run_ollama_summary m c t (.stream (pre ++ .malformed e :: post)) = failMsg e ∧
    run_ollama_summary m c t (.stream (.empty :: rest)) =
      run_ollama_summary m c t (.stream rest) := by
  constructor
  · simp only [run_ollama_summary]
    rw [consumeLines_append_malformed pre e post "" h]
  · rfl

theorem c8_malformed_line_aborts_stream_witness :
    ([StreamLine.frag "Hel" false] : List StreamLine).all isPlainLine = true ∧
    (run_ollama_summary "llama3" none "words"
        (.stream ([StreamLine.frag "Hel" false] ++ .malformed "bad" :: [.frag "X" false])) =
      failMsg "bad" ∧
    run_ollama_summary "llama3" none "words" (.stream (.empty :: [.frag "Hi" true])) =
      run_ollama_summary "llama3" none "words" (.stream [.frag "Hi" true])) :=
  ⟨by decide,
   c8_malformed_line_aborts_stream "llama3" none "words" "bad"
     [StreamLine.frag "Hel" false] [.frag "X" false] [.frag "Hi" true] (by decide)⟩
